import Mathlib

/-!
Verification development for the sales-conversation analysis service
(`src/main.py`, `src/models/database.py`, `src/schemas/conversation.py`).

The route handlers and the background pipeline of `main.py` are embedded
as pure functions producing an explicit trace of observable events
(progress-store calls, collaborator invocations, background-task
dispatch, HTTP responses).  External collaborators (audio processing,
transcription, speaker identification, classification, the database
commit) live in service modules that are not part of the sources here;
they are taken as parameters returning `Except String` results, so the
theorems quantify over every possible collaborator outcome.  The
progress store itself (`services/progress.py`) is likewise absent and is
modelled from the spec, section 4.3.
-/

set_option autoImplicit false

namespace SalesPipeline

/-! ## Data model (spec section 3, `schemas/conversation.py`, `models/database.py`) -/

/-- One transcript segment as produced by the transcription collaborator:
start and end times in seconds (modelled as rationals), a speaker label
and the spoken text.  The `end` key of the Python dict is named `stop`
here because `end` is a Lean keyword. -/
structure TranscriptSegment where
  start : ℚ
  stop : ℚ
  speaker : String
  text : String
  deriving DecidableEq

/-- The transcript dict: ordered segments plus the speaker list attached
by `transcribe_and_analyze` (`transcript["speakers"] = speakers`). -/
structure Transcript where
  segments : List TranscriptSegment
  speakers : List String
  deriving DecidableEq

/-- The per-segment classification produced by the dialogue classifier. -/
structure Classification where
  phase : String
  sentiment : String
  deriving DecidableEq

/-- One analysis segment: correlated with a transcript segment by its
`start` timestamp, never by index. -/
structure AnalysisSegment where
  start : ℚ
  classification : Classification
  deriving DecidableEq

/-- Turn statistics for one inferred role, as read by the txt export
(`turn_analysis['salesperson_stats']['total_turns']`). -/
structure SpeakerStats where
  total_turns : Nat
  deriving DecidableEq

/-- The turn-taking summary attached to the analysis by the pipeline
(`analysis["turn_taking"] = turn_analysis`). -/
structure TurnTaking where
  total_turns : Nat
  salesperson_stats : SpeakerStats
  customer_stats : SpeakerStats
  deriving DecidableEq

/-- The analysis summary block: total duration, per-phase duration map
and per-sentiment count map (association lists, preserving order). -/
structure AnalysisSummary where
  duration : ℚ
  phase_distribution : List (String × ℚ)
  sentiment_summary : List (String × Nat)
  deriving DecidableEq

/-- The full analysis object stored on a conversation. -/
structure Analysis where
  segments : List AnalysisSegment
  summary : AnalysisSummary
  turn_taking : TurnTaking
  deriving DecidableEq

/-- The payload from which a database row is created
(`schemas/conversation.py`, `ConversationCreate`). -/
structure ConversationCreate where
  user_id : Nat
  file_path : String
  transcript : Transcript
  analysis : Analysis
  deriving DecidableEq

/-- A persisted conversation row (`models/database.py`, `Conversation`):
the create payload plus the database-assigned id and creation timestamp
(the timestamp is kept abstract as its ISO string). -/
structure Conversation where
  id : Nat
  user_id : Nat
  file_path : String
  transcript : Transcript
  analysis : Analysis
  created_at : String
  deriving DecidableEq

/-! ## Progress store (modelled from the spec, section 4.3) -/

/-- Snapshot of one task in the progress store: stage ordinal, status
flag and optional error detail.  Stage is an `Int` because the error
path of `transcribe_and_analyze` passes `-1`. -/
structure ProcessingTask where
  stage : Int
  status : String
  errorDetail : Option String
  deriving DecidableEq

/-- The progress store as an association list from task id to state;
lookups take the first binding. -/
def ProgressStore : Type := List (String × ProcessingTask)

/-- Modelled from the spec: `services/progress.py` is absent from the
sources.  Per section 4.3, `create(task_id)` registers a new task at
stage 0, status `pending`.  (Duplicate ids cannot arise here: admission
generates a fresh random id per task.) -/
def createTask (store : ProgressStore) (taskId : String) : ProgressStore :=
  (taskId, ⟨0, "pending", none⟩) :: store

/-- Modelled from the spec: per section 4.3, `update` overwrites the
stored state for the id.  An update to a never-created id is a no-op
here; every call site creates the task first. -/
def updateProgress (store : ProgressStore) (taskId : String) (stage : Int)
    (stat : String) (errorDetail : Option String) : ProgressStore :=
  store.map (fun p => if p.1 = taskId then (taskId, ⟨stage, stat, errorDetail⟩) else p)

/-- Modelled from the spec: per section 4.3, `get` returns the current
snapshot, or an `UnknownTask` marker (here `none`) for an id that was
never created. -/
def getProgress (store : ProgressStore) (taskId : String) : Option ProcessingTask :=
  (store.find? (fun p => p.1 == taskId)).map Prod.snd

/-- Modelled from the spec: the status argument that the call sites of
`update_progress` omit (e.g. `update_progress(task_id, 1)`); the spec's
status set (section 3) makes an in-flight task `running`. -/
def defaultStatus : String := "running"

/-! ## Observable events

Each route handler and the background pipeline is embedded as a function
returning the ordered list of its observable actions. -/

/-- One observable action of a handler or of the background pipeline. -/
inductive Event where
  /-- `progress_tracker.create_task(task_id)` -/
  | createTask (taskId : String)
  /-- `progress_tracker.update_progress(task_id, stage, status, error)` -/
  | updateProgress (taskId : String) (stage : Int) (stat : String) (errorDetail : Option String)
  /-- invocation of `process_audio_file(file)` -/
  | invokeProcessAudio (filename : String)
  /-- invocation of `transcribe_audio(file_path)` -/
  | invokeTranscribe (filePath : String)
  /-- invocation of `speaker_identifier.identify_speakers(...)` -/
  | invokeIdentifySpeakers
  /-- invocation of `speaker_identifier.analyze_turn_taking(...)` -/
  | invokeAnalyzeTurnTaking
  /-- invocation of `classify_dialogue(transcript)` -/
  | invokeClassify
  /-- `db.add(...)` followed by `db.commit()` -/
  | invokeDbCommit
  /-- `background_tasks.add_task(transcribe_and_analyze, ...)` -/
  | addBackgroundTask (taskId : String)
  /-- the 202 response carrying the task id is returned to the caller -/
  | returnAccepted (taskId : String)
  deriving DecidableEq

/-- Replay of one event against a progress store; events that are not
store operations leave the store unchanged. -/
def applyEvent (store : ProgressStore) : Event → ProgressStore
  | Event.createTask tid => createTask store tid
  | Event.updateProgress tid stage stat err => updateProgress store tid stage stat err
  | _ => store

/-- Replay of a whole trace against a progress store. -/
def replay (store : ProgressStore) (events : List Event) : ProgressStore :=
  events.foldl applyEvent store

/-! ## The background pipeline (`transcribe_and_analyze`, main.py lines 260-309) -/

/-- The external collaborators invoked by the pipeline.  Their modules
are not part of the sources; each is an arbitrary function that either
returns a value or raises (returns `Except.error` with the exception
message). -/
structure Collaborators where
  transcribeAudio : String → Except String Transcript
  identifySpeakers : List TranscriptSegment → Except String (List String)
  analyzeTurnTaking : List String → List TranscriptSegment → Except String TurnTaking
  classifyDialogue : Transcript → Except String Analysis
  commitRecord : ConversationCreate → Except String Unit

/-- Shorthand for the error transition the pipeline's `except` clause
performs: `update_progress(task_id, -1, "error", str(e))`. -/
def errorUpdate (taskId : String) (msg : String) : Event :=
  Event.updateProgress taskId (-1) "error" (some msg)

/-- Straight-line embedding of `transcribe_and_analyze`: returns the
event trace in program order together with the conversation row
committed to the database (`none` when the pipeline failed before or at
the commit).  Mirrors main.py lines 269-309: stage 1 is marked first,
stage 2 is marked and then transcription is invoked, speakers and
turn-taking are computed, stage 3 is marked and then classification is
invoked, the record is committed, and only then stage 4 / `completed`
is marked; any exception triggers `update_progress(task_id, -1,
"error", str(e))` and re-raises. -/
def transcribeAndAnalyze (c : Collaborators) (filePath : String) (userId : Nat)
    (taskId : String) : List Event × Option ConversationCreate :=
  let e0 : List Event :=
    [Event.updateProgress taskId 1 defaultStatus none,
     Event.updateProgress taskId 2 defaultStatus none,
     Event.invokeTranscribe filePath]
  match c.transcribeAudio filePath with
  | Except.error m => (e0 ++ [errorUpdate taskId m], none)
  | Except.ok t0 =>
    let e1 := e0 ++ [Event.invokeIdentifySpeakers]
    match c.identifySpeakers t0.segments with
    | Except.error m => (e1 ++ [errorUpdate taskId m], none)
    | Except.ok speakers =>
      let e2 := e1 ++ [Event.invokeAnalyzeTurnTaking]
      match c.analyzeTurnTaking speakers t0.segments with
      | Except.error m => (e2 ++ [errorUpdate taskId m], none)
      | Except.ok turns =>
        let e3 := e2 ++
          [Event.updateProgress taskId 3 defaultStatus none, Event.invokeClassify]
        match c.classifyDialogue (Transcript.mk t0.segments speakers) with
        | Except.error m => (e3 ++ [errorUpdate taskId m], none)
        | Except.ok a0 =>
          let record : ConversationCreate :=
            ⟨userId, filePath, Transcript.mk t0.segments speakers,
             Analysis.mk a0.segments a0.summary turns⟩
          let e4 := e3 ++ [Event.invokeDbCommit]
          match c.commitRecord record with
          | Except.error m => (e4 ++ [errorUpdate taskId m], none)
          | Except.ok _ =>
            (e4 ++ [Event.updateProgress taskId 4 "completed" none], some record)

/-- The message of the first failing pipeline step, mirroring the
control flow of `transcribeAndAnalyze`; `none` when every step
succeeds. -/
def pipelineFailure (c : Collaborators) (filePath : String) (userId : Nat) :
    Option String :=
  match c.transcribeAudio filePath with
  | Except.error m => some m
  | Except.ok t0 =>
    match c.identifySpeakers t0.segments with
    | Except.error m => some m
    | Except.ok speakers =>
      match c.analyzeTurnTaking speakers t0.segments with
      | Except.error m => some m
      | Except.ok turns =>
        match c.classifyDialogue (Transcript.mk t0.segments speakers) with
        | Except.error m => some m
        | Except.ok a0 =>
          match c.commitRecord
              ⟨userId, filePath, Transcript.mk t0.segments speakers,
               Analysis.mk a0.segments a0.summary turns⟩ with
          | Except.error m => some m
          | Except.ok _ => none

/-! ## Admission (`upload_single_audio`, main.py lines 33-74) -/

/-- An uploaded file reference: name and declared media type. -/
structure UploadFile where
  filename : String
  content_type : String
  deriving DecidableEq

/-- The supported media types (main.py lines 44 and 91). -/
def allowedContentTypes : List String := ["audio/wav", "audio/mp3", "audio/m4a"]

/-- An `HTTPException`: status code and detail string. -/
structure HErr where
  status_code : Nat
  detail : String
  deriving DecidableEq

/-- The 202 body of a successful single-file admission. -/
structure AcceptedResponse where
  message : String
  task_id : String
  deriving DecidableEq

/-- Embedding of `upload_single_audio`.  `processAudio` is the absent
`process_audio_file` collaborator (returns the converted file's path or
raises); `taskId` stands for the fresh `uuid.uuid4()` value.  Mirrors
main.py lines 43-74: media-type validation precedes task-id allocation;
then `create_task`, `update_progress(task_id, 0)`, the awaited
`process_audio_file`, background dispatch, and the 202 response; a
raise inside the `try` yields `update_progress(task_id, 0, "error",
str(e))` and a 500. -/
def uploadSingleAudio (processAudio : UploadFile → Except String String)
    (file : UploadFile) (taskId : String) :
    List Event × Except HErr AcceptedResponse :=
  if allowedContentTypes.contains file.content_type then
    let e0 : List Event :=
      [Event.createTask taskId,
       Event.updateProgress taskId 0 defaultStatus none,
       Event.invokeProcessAudio file.filename]
    match processAudio file with
    | Except.error m =>
      (e0 ++ [Event.updateProgress taskId 0 "error" (some m)],
       Except.error ⟨500, m⟩)
    | Except.ok _ =>
      (e0 ++ [Event.addBackgroundTask taskId, Event.returnAccepted taskId],
       Except.ok ⟨"File uploaded successfully, processing started", taskId⟩)
  else
    ([], Except.error ⟨400, "Invalid file format"⟩)

/-! ## Batch admission (`upload_batch_audio`, main.py lines 76-128) -/

/-- One entry of the batch response: the message, the task id, and the
error message when processing that file raised (absent on success). -/
structure BatchEntry where
  message : String
  task_id : String
  error : Option String
  deriving DecidableEq

/-- The response entry the batch loop appends for one file, given the
outcome of `process_audio_file` on it (main.py lines 112-123). -/
def entryFor (taskId : String) (file : UploadFile) :
    Except String String → BatchEntry
  | Except.ok _ =>
    ⟨"File " ++ file.filename ++ " uploaded successfully", taskId, none⟩
  | Except.error m =>
    ⟨"Error processing " ++ file.filename ++ ": " ++ m, taskId, some m⟩

/-- The events the batch loop emits for one file, given the outcome of
`process_audio_file` on it (main.py lines 99-123). -/
def eventsFor (taskId : String) (file : UploadFile) :
    Except String String → List Event
  | Except.ok _ =>
    [Event.createTask taskId, Event.invokeProcessAudio file.filename,
     Event.addBackgroundTask taskId]
  | Except.error m =>
    [Event.createTask taskId, Event.invokeProcessAudio file.filename,
     Event.updateProgress taskId 0 "error" (some m)]

/-- The per-file loop of `upload_batch_audio` (main.py lines 98-123):
each file gets a fresh task id (`gen i` stands for the i-th
`uuid.uuid4()`), is registered, processed, and either dispatched or
marked errored; a failure never aborts the loop. -/
def processBatch (processAudio : UploadFile → Except String String)
    (gen : Nat → String) : Nat → List UploadFile → List Event × List BatchEntry
  | _, [] => ([], [])
  | i, f :: rest =>
    let tail := processBatch processAudio gen (i + 1) rest
    (eventsFor (gen i) f (processAudio f) ++ tail.1,
     entryFor (gen i) f (processAudio f) :: tail.2)

/-- Embedding of `upload_batch_audio` (main.py lines 76-128): reject a
batch of more than 10 files; reject the whole batch on the first member
with an unsupported media type, before any task id is allocated; then
run the per-file loop and return 202 with one entry per file. -/
def uploadBatchAudio (processAudio : UploadFile → Except String String)
    (gen : Nat → String) (files : List UploadFile) :
    List Event × Except HErr (List BatchEntry) :=
  if files.length > 10 then
    ([], Except.error ⟨400, "Maximum 10 files per batch"⟩)
  else
    match files.find? (fun f => !(allowedContentTypes.contains f.content_type)) with
    | some f => ([], Except.error ⟨400, "Invalid file format for " ++ f.filename⟩)
    | none =>
      let r := processBatch processAudio gen 0 files
      (r.1, Except.ok r.2)

/-! ## Progress query (`get_task_progress`, main.py lines 130-141) -/

/-- Embedding of `get_task_progress`: look the task up in the progress
store; the store's `UnknownTask` marker (main.py: the `"error"` key in
the returned dict) becomes a 404, and any existing task's snapshot —
including one whose status is `error` — is returned as-is. -/
def getTaskProgress (store : ProgressStore) (taskId : String) :
    Except HErr ProcessingTask :=
  match getProgress store taskId with
  | none => Except.error ⟨404, "Task not found"⟩
  | some t => Except.ok t

/-! ## Export (`export_conversation`, main.py lines 181-258) -/

/-- Rendering of a rational with two decimal places, standing for
Python's `f"{x:.2f}"` (round-half-up; no claim depends on the digit
rendering itself). -/
def fmt2 (q : ℚ) : String :=
  let cents : Int := ⌊q * 100 + 1 / 2⌋
  let whole : Int := cents / 100
  let frac : Nat := (cents % 100).natAbs
  toString whole ++ "." ++ (if frac < 10 then "0" ++ toString frac else toString frac)

/-- One csv row (main.py lines 217-220): start, speaker, quoted text,
then the phase and sentiment looked up among the analysis segments. -/
def csvRow (seg : TranscriptSegment) (cls : Classification) : String :=
  fmt2 seg.start ++ "," ++ seg.speaker ++ ",\"" ++ seg.text ++ "\"," ++
    cls.phase ++ "," ++ cls.sentiment ++ "\n"

/-- The csv body: for each transcript segment, the classification is
`next(s["classification"] for s in analysis["segments"] if s["start"]
== segment["start"])` — the first analysis segment with the same start;
no match raises `StopIteration`, aborting the export. -/
def csvRows (analysisSegs : List AnalysisSegment) :
    List TranscriptSegment → Except String String
  | [] => Except.ok ""
  | seg :: rest =>
    match analysisSegs.find? (fun s => s.start == seg.start) with
    | none => Except.error "StopIteration"
    | some a =>
      (csvRows analysisSegs rest).map (fun tail => csvRow seg a.classification ++ tail)

/-- The csv export (main.py lines 214-228): header line plus one row
per transcript segment. -/
def exportCsv (conv : Conversation) : Except String String :=
  (csvRows conv.analysis.segments conv.transcript.segments).map
    (fun body => "timestamp,speaker,text,phase,sentiment\n" ++ body)

/-- The txt export (main.py lines 229-258). -/
def exportTxt (conversationId : Nat) (conv : Conversation) : String :=
  let transcriptLines := conv.transcript.segments.foldl
    (fun acc seg =>
      acc ++ "[" ++ fmt2 seg.start ++ "s] " ++ seg.speaker ++ ": " ++ seg.text ++ "\n")
    ""
  let phaseLines := conv.analysis.summary.phase_distribution.foldl
    (fun acc p => acc ++ "- " ++ p.1 ++ ": " ++ fmt2 p.2 ++ "s\n") ""
  let sentimentLines := conv.analysis.summary.sentiment_summary.foldl
    (fun acc p => acc ++ "- " ++ p.1 ++ ": " ++ toString p.2 ++ "\n") ""
  "Sales Conversation Analysis - ID: " ++ toString conversationId ++ "\n" ++
    "Date: " ++ conv.created_at ++ "\n\n" ++
    "Transcript:\n" ++ transcriptLines ++
    "\nAnalysis:\n" ++
    "Duration: " ++ fmt2 conv.analysis.summary.duration ++ "s\n" ++
    "\nPhase Distribution:\n" ++ phaseLines ++
    "\nSentiment Distribution:\n" ++ sentimentLines ++
    "\nTurn Taking Analysis:\n" ++
    "Total Turns: " ++ toString conv.analysis.turn_taking.total_turns ++ "\n" ++
    "Salesperson Turns: " ++
      toString conv.analysis.turn_taking.salesperson_stats.total_turns ++ "\n" ++
    "Customer Turns: " ++
      toString conv.analysis.turn_taking.customer_stats.total_turns ++ "\n"

/-- A JSON value, for the structured export and its re-parse. -/
inductive Json where
  | str (s : String)
  | num (q : ℚ)
  | arr (xs : List Json)
  | obj (fields : List (String × Json))

/-- Field lookup in a JSON object. -/
def Json.getField : Json → String → Option Json
  | Json.obj fields, k => (fields.find? (fun p => p.1 == k)).map Prod.snd
  | _, _ => none

/-- Serialization of one transcript segment. -/
def segToJson (s : TranscriptSegment) : Json :=
  Json.obj [("start", Json.num s.start), ("end", Json.num s.stop),
            ("speaker", Json.str s.speaker), ("text", Json.str s.text)]

/-- Serialization of the transcript dict. -/
def transcriptToJson (t : Transcript) : Json :=
  Json.obj [("segments", Json.arr (t.segments.map segToJson)),
            ("speakers", Json.arr (t.speakers.map Json.str))]

/-- Serialization of one analysis segment. -/
def aSegToJson (a : AnalysisSegment) : Json :=
  Json.obj [("start", Json.num a.start),
            ("classification",
             Json.obj [("phase", Json.str a.classification.phase),
                       ("sentiment", Json.str a.classification.sentiment)])]

/-- Serialization of the analysis summary block. -/
def summaryToJson (s : AnalysisSummary) : Json :=
  Json.obj [("duration", Json.num s.duration),
            ("phase_distribution",
             Json.obj (s.phase_distribution.map (fun p => (p.1, Json.num p.2)))),
            ("sentiment_summary",
             Json.obj (s.sentiment_summary.map (fun p => (p.1, Json.num (p.2 : ℚ)))))]

/-- Serialization of the turn-taking summary. -/
def turnTakingToJson (t : TurnTaking) : Json :=
  Json.obj [("total_turns", Json.num (t.total_turns : ℚ)),
            ("salesperson_stats",
             Json.obj [("total_turns", Json.num (t.salesperson_stats.total_turns : ℚ))]),
            ("customer_stats",
             Json.obj [("total_turns", Json.num (t.customer_stats.total_turns : ℚ))])]

/-- Serialization of the analysis object. -/
def analysisToJson (a : Analysis) : Json :=
  Json.obj [("segments", Json.arr (a.segments.map aSegToJson)),
            ("summary", summaryToJson a.summary),
            ("turn_taking", turnTakingToJson a.turn_taking)]

/-- The structured (json) export (main.py lines 203-213): the raw
transcript and analysis objects plus metadata. -/
def exportJson (conv : Conversation) : Json :=
  Json.obj [("transcript", transcriptToJson conv.transcript),
            ("analysis", analysisToJson conv.analysis),
            ("metadata",
             Json.obj [("created_at", Json.str conv.created_at),
                       ("file_path", Json.str conv.file_path)])]

/-- The body of an export response. -/
inductive ExportOut where
  | json (j : Json)
  | csv (content : String)
  | txt (content : String)

/-- Embedding of `export_conversation` (main.py lines 181-258): the
record is looked up by id and owning user (404 when absent or foreign),
then the format flag is checked (400 when unsupported), then the
selected renderer runs; an uncaught `StopIteration` in the csv renderer
surfaces as a 500. -/
def exportConversation (db : List Conversation) (conversationId : Nat)
    (userId : Nat) (format : String) : Except HErr ExportOut :=
  match db.find? (fun c => c.id == conversationId && c.user_id == userId) with
  | none => Except.error ⟨404, "Conversation not found"⟩
  | some conv =>
    if (["json", "csv", "txt"] : List String).contains format then
      if format == "json" then Except.ok (ExportOut.json (exportJson conv))
      else if format == "csv" then
        match exportCsv conv with
        | Except.error m => Except.error ⟨500, m⟩
        | Except.ok content => Except.ok (ExportOut.csv content)
      else Except.ok (ExportOut.txt (exportTxt conversationId conv))
    else Except.error ⟨400, "Unsupported format"⟩

/-! ## Re-parsing of the structured export (for the round-trip claim) -/

/-- Numeric projection of a JSON value. -/
def asNum : Json → Option ℚ
  | Json.num q => some q
  | _ => none

/-- String projection of a JSON value. -/
def asStr : Json → Option String
  | Json.str s => some s
  | _ => none

/-- Array projection of a JSON value. -/
def asArr : Json → Option (List Json)
  | Json.arr xs => some xs
  | _ => none

/-- Inverse of the `Nat → ℚ` embedding used for counts. -/
def ratToNat : ℚ → Option Nat :=
  fun q => if q.den = 1 ∧ 0 ≤ q.num then some q.num.toNat else none

/-- Fallible map over a list: `none` as soon as one element fails. -/
def mapOption {α β : Type} (f : α → Option β) : List α → Option (List β)
  | [] => some []
  | a :: rest => (f a).bind fun b => (mapOption f rest).map fun bs => b :: bs

/-- Re-parse of a serialized rational-valued mapping. -/
def parseRatPairs : Json → Option (List (String × ℚ))
  | Json.obj fields => mapOption (fun p => (asNum p.2).map (fun q => (p.1, q))) fields
  | _ => none

/-- Re-parse of a serialized count-valued mapping. -/
def parseNatPairs : Json → Option (List (String × Nat))
  | Json.obj fields =>
    mapOption (fun p => (asNum p.2).bind ratToNat |>.map (fun n => (p.1, n))) fields
  | _ => none

/-- Re-parse of a serialized analysis summary. -/
def parseSummary (j : Json) : Option AnalysisSummary :=
  (j.getField "duration" |>.bind asNum).bind fun d =>
  (j.getField "phase_distribution" |>.bind parseRatPairs).bind fun pd =>
  (j.getField "sentiment_summary" |>.bind parseNatPairs).map fun ss =>
  ⟨d, pd, ss⟩

/-- The transcript segment count recovered from a structured export. -/
def reparseSegmentCount (j : Json) : Option Nat :=
  (j.getField "transcript" |>.bind (fun t => t.getField "segments")
    |>.bind asArr).map List.length

/-- The analysis summary recovered from a structured export. -/
def reparseSummary (j : Json) : Option AnalysisSummary :=
  (j.getField "analysis" |>.bind (fun a => a.getField "summary")).bind parseSummary

/-! ## Trace predicates -/

/-- Holds (is `true`) when no `isMark` event occurs before the first
`isStep` event of the trace: the marking happens only once the step has
been reached. -/
def marksOnlyAfter (isStep isMark : Event → Bool) : List Event → Bool
  | [] => true
  | e :: rest =>
    if isMark e then false
    else if isStep e then true
    else marksOnlyAfter isStep isMark rest

/-- Holds (is `true`) when every occurrence of `a` in the trace is
immediately followed by `b`. -/
def followedBy (a b : Event) : List Event → Bool
  | [] => true
  | e :: rest =>
    if e = a then
      match rest with
      | [] => false
      | e2 :: _ => decide (e2 = b) && followedBy a b rest
    else followedBy a b rest

/-- Recognizer for a progress update of the given task carrying the
given stage ordinal (any status). -/
def isStageMark (taskId : String) (stage : Int) : Event → Bool
  | Event.updateProgress tid st _ _ => tid == taskId && st == stage
  | _ => false

/-- Recognizer for the transcription invocation. -/
def isTranscribeStep : Event → Bool
  | Event.invokeTranscribe _ => true
  | _ => false

/-- Recognizer for the classification invocation. -/
def isClassifyStep : Event → Bool
  | Event.invokeClassify => true
  | _ => false

/-- Recognizer for the return of the admission response. -/
def isReturnStep : Event → Bool
  | Event.returnAccepted _ => true
  | _ => false

/-- Recognizer for any processing work on the recording: the audio
processing, transcription, speaker, turn-taking, classification or
persistence step. -/
def isProcessingWork : Event → Bool
  | Event.invokeProcessAudio _ => true
  | Event.invokeTranscribe _ => true
  | Event.invokeIdentifySpeakers => true
  | Event.invokeAnalyzeTurnTaking => true
  | Event.invokeClassify => true
  | Event.invokeDbCommit => true
  | _ => false

/-- The stage ordinals written for the task by every progress update of
the trace, in order (the initial registration by `create` excluded). -/
def stageWrites (taskId : String) (events : List Event) : List Int :=
  events.filterMap (fun e =>
    match e with
    | Event.updateProgress tid st _ _ => if tid = taskId then some st else none
    | _ => none)

/-- The stage ordinals written by the non-error progress updates only. -/
def nonErrorStageWrites (taskId : String) (events : List Event) : List Int :=
  events.filterMap (fun e =>
    match e with
    | Event.updateProgress tid st stat _ =>
      if tid = taskId ∧ stat ≠ "error" then some st else none
    | _ => none)

/-- The stage ordinals written by the error-status progress updates. -/
def errorStageWrites (taskId : String) (events : List Event) : List Int :=
  events.filterMap (fun e =>
    match e with
    | Event.updateProgress tid st stat _ =>
      if tid = taskId ∧ stat = "error" then some st else none
    | _ => none)

/-- The full lifetime trace of one admitted task: the admission
handler's events followed, when the handler reached the dispatch, by
the background pipeline's events. -/
def taskLifetime (c : Collaborators) (processAudio : UploadFile → Except String String)
    (file : UploadFile) (userId : Nat) (taskId : String) : List Event :=
  let admission := uploadSingleAudio processAudio file taskId
  match processAudio file with
  | Except.error _ => admission.1
  | Except.ok filePath =>
    if allowedContentTypes.contains file.content_type then
      admission.1 ++ (transcribeAndAnalyze c filePath userId taskId).1
    else admission.1

/-! ## Concrete sample data (used by witnesses and counterexamples) -/

/-- A sample transcript with one segment. -/
def sampleTranscript : Transcript :=
  ⟨[⟨0, 2, "A", "hi"⟩], []⟩

/-- A sample turn-taking summary. -/
def sampleTurns : TurnTaking := ⟨1, ⟨1⟩, ⟨0⟩⟩

/-- A sample analysis whose single segment matches the sample
transcript's start. -/
def sampleAnalysis : Analysis :=
  ⟨[⟨0, ⟨"opening", "positive"⟩⟩], ⟨2, [("opening", 2)], [("positive", 1)]⟩, sampleTurns⟩

/-- Collaborators on which every pipeline step succeeds. -/
def okCollab : Collaborators :=
  ⟨fun _ => Except.ok sampleTranscript,
   fun _ => Except.ok ["A"],
   fun _ _ => Except.ok sampleTurns,
   fun _ => Except.ok sampleAnalysis,
   fun _ => Except.ok ()⟩

/-- Collaborators failing at the dialogue-classification step. -/
def failClassifyCollab : Collaborators :=
  { okCollab with classifyDialogue := fun _ => Except.error "classifier down" }

/-- Collaborators failing at the transcription step. -/
def failTranscribeCollab : Collaborators :=
  { okCollab with transcribeAudio := fun _ => Except.error "whisper crashed" }

/-- An audio-processing collaborator that always succeeds. -/
def okProcess : UploadFile → Except String String :=
  fun f => Except.ok ("/tmp/" ++ f.filename)

/-- A valid sample upload. -/
def wavFile : UploadFile := ⟨"call.wav", "audio/wav"⟩

/-- An upload with an unsupported media type. -/
def pdfFile : UploadFile := ⟨"call.pdf", "application/pdf"⟩

/-- A sample persisted conversation whose analysis segment starts match
its transcript segment starts. -/
def sampleConversation : Conversation :=
  ⟨1, 7, "/tmp/call.wav", sampleTranscript, sampleAnalysis, "2026-01-01T00:00:00"⟩

/-- A conversation whose single transcript segment's start (1) matches
no analysis segment's start (0). -/
def mismatchConversation : Conversation :=
  ⟨2, 7, "/tmp/call.wav", ⟨[⟨1, 2, "A", "hi"⟩], []⟩, sampleAnalysis, "2026-01-01T00:00:00"⟩

/-- An audio-processing collaborator that fails on one specific file
name and succeeds on every other. -/
def flakyProcess : UploadFile → Except String String :=
  fun f =>
    if f.filename == "bad.wav" then Except.error "disk full"
    else Except.ok ("/tmp/" ++ f.filename)

/-- A valid batch whose middle file makes `flakyProcess` fail. -/
def batchFiles : List UploadFile :=
  [wavFile, ⟨"bad.wav", "audio/wav"⟩, ⟨"tail.wav", "audio/wav"⟩]

/-- An 11-file batch (all individually valid). -/
def elevenFiles : List UploadFile := List.replicate 11 wavFile

/-- A small batch containing one invalid member. -/
def mixedFiles : List UploadFile := [wavFile, pdfFile]

/-- A deterministic stand-in for the sequence of fresh task ids. -/
def genId : Nat → String := fun n => "task-" ++ toString n

/-- A progress store holding an errored task and a freshly created
stage-0 task. -/
def twoTaskStore : ProgressStore :=
  [("a", ⟨-1, "error", some "boom"⟩), ("b", ⟨0, "pending", none⟩)]

/-! ## Store lemmas -/

theorem getProgress_createTask_self (s : ProgressStore) (tid : String) :
    getProgress (createTask s tid) tid = some ⟨0, "pending", none⟩ := by
  simp [getProgress, createTask, List.find?]

theorem getProgress_updateProgress_self (s : ProgressStore) (tid : String)
    (st : Int) (stat : String) (ed : Option String) :
    getProgress (updateProgress s tid st stat ed) tid =
      (getProgress s tid).map (fun _ => ⟨st, stat, ed⟩) := by
  induction s with
  | nil => rfl
  | cons p rest ih =>
    unfold updateProgress getProgress at ih ⊢
    by_cases h : p.1 = tid
    · simp [List.map_cons, h, List.find?_cons]
    · have hb : (p.1 == tid) = false := by simpa using h
      simpa [List.map_cons, h, hb, List.find?_cons] using ih

/-! ## C4 — admission errors are synchronous, allocate nothing -/

/-- C4: an admission error — a file whose declared media type is
outside the supported set, a batch of more than 10 files, or a batch
containing an invalid member — is rejected synchronously with a 400, an
empty event trace (so no task id is allocated and the progress store is
untouched), and in particular a batch of 11 files is rejected wholesale
with zero task ids created. -/
theorem c4_admission_rejection (processAudio : UploadFile → Except String String)
    (gen : Nat → String) (file : UploadFile) (files : List UploadFile)
    (taskId : String) (g : UploadFile) :
    (¬ allowedContentTypes.contains file.content_type = true →
      uploadSingleAudio processAudio file taskId =
        ([], Except.error ⟨400, "Invalid file format"⟩)) ∧
    (files.length > 10 →
      uploadBatchAudio processAudio gen files =
        ([], Except.error ⟨400, "Maximum 10 files per batch"⟩)) ∧
    (files.length ≤ 10 →
      files.find? (fun f => !(allowedContentTypes.contains f.content_type)) = some g →
      uploadBatchAudio processAudio gen files =
        ([], Except.error ⟨400, "Invalid file format for " ++ g.filename⟩)) := by
  refine ⟨fun h => ?_, fun h => ?_, fun h1 h2 => ?_⟩
  · unfold uploadSingleAudio
    rw [if_neg h]
  · simp [uploadBatchAudio, h]
  · have h3 : ¬ files.length > 10 := by omega
    unfold uploadBatchAudio
    rw [if_neg h3, h2]

/-- Witness for C4 at concrete inputs: an invalid single upload, an
11-file batch, and a 2-file batch with one invalid member. -/
theorem c4_admission_rejection_witness :
    uploadSingleAudio okProcess pdfFile "t" =
      ([], Except.error ⟨400, "Invalid file format"⟩) ∧
    uploadBatchAudio okProcess genId elevenFiles =
      ([], Except.error ⟨400, "Maximum 10 files per batch"⟩) ∧
    uploadBatchAudio okProcess genId mixedFiles =
      ([], Except.error ⟨400, "Invalid file format for " ++ pdfFile.filename⟩) :=
  ⟨(c4_admission_rejection okProcess genId pdfFile elevenFiles "t" pdfFile).1 (by decide),
   (c4_admission_rejection okProcess genId pdfFile elevenFiles "t" pdfFile).2.1 (by decide),
   (c4_admission_rejection okProcess genId pdfFile mixedFiles "t" pdfFile).2.2
     (by decide) (by decide)⟩

/-! ## C6 — progress query -/

/-- C6: a progress query on a created task returns its current
snapshot (stage, status, optional error detail — also when the status
is `error`), while a never-created task id yields a 404 not-found
rejection, which is distinguishable from any snapshot, in particular
from a valid task still at stage 0. -/
theorem c6_progress_query (store : ProgressStore) (taskId : String)
    (t : ProcessingTask) :
    (getProgress store taskId = some t →
      getTaskProgress store taskId = Except.ok t) ∧
    (getProgress store taskId = none →
      getTaskProgress store taskId = Except.error ⟨404, "Task not found"⟩) ∧
    (∀ u : ProcessingTask,
      (Except.ok u : Except HErr ProcessingTask) ≠
        Except.error ⟨404, "Task not found"⟩) := by
  refine ⟨fun h => ?_, fun h => ?_, fun u => by simp⟩
  · simp [getTaskProgress, h]
  · simp [getTaskProgress, h]

/-- Witness for C6 on a concrete store: the errored task "a" is
returned with its error detail, the unknown id "zzz" is a 404, and the
404 differs from the stage-0 snapshot of task "b". -/
theorem c6_progress_query_witness :
    getTaskProgress twoTaskStore "a" = Except.ok ⟨-1, "error", some "boom"⟩ ∧
    getTaskProgress twoTaskStore "zzz" = Except.error ⟨404, "Task not found"⟩ ∧
    (Except.ok (⟨0, "pending", none⟩ : ProcessingTask) :
      Except HErr ProcessingTask) ≠ Except.error ⟨404, "Task not found"⟩ :=
  ⟨(c6_progress_query twoTaskStore "a" ⟨-1, "error", some "boom"⟩).1 (by decide),
   (c6_progress_query twoTaskStore "zzz" ⟨-1, "error", some "boom"⟩).2.1 (by decide),
   (c6_progress_query twoTaskStore "b" ⟨0, "pending", none⟩).2.2 ⟨0, "pending", none⟩⟩

/-! ## C8 — export rejections are distinguishable -/

/-- C8: an export request for a record id that does not exist for the
requesting user (unknown or foreign-owned) is rejected with a 404
not-found, a known record with an unsupported format flag is rejected
with a 400 bad-request, and the two rejections are distinguishable. -/
theorem c8_export_rejections (db : List Conversation) (conversationId userId : Nat)
    (format : String) (conv : Conversation) :
    ((∀ c ∈ db, ¬(c.id = conversationId ∧ c.user_id = userId)) →
      exportConversation db conversationId userId format =
        Except.error ⟨404, "Conversation not found"⟩) ∧
    (db.find? (fun c => c.id == conversationId && c.user_id == userId) = some conv →
      ¬ (["json", "csv", "txt"] : List String).contains format = true →
      exportConversation db conversationId userId format =
        Except.error ⟨400, "Unsupported format"⟩) ∧
    (⟨404, "Conversation not found"⟩ : HErr) ≠ ⟨400, "Unsupported format"⟩ := by
  refine ⟨fun h => ?_, fun h1 h2 => ?_, by simp⟩
  · have hn : db.find? (fun c => c.id == conversationId && c.user_id == userId) = none := by
      rw [List.find?_eq_none]
      intro c hc
      simpa using h c hc
    simp [exportConversation, hn]
  · unfold exportConversation
    rw [h1]
    simp only [if_neg h2]

/-- Witness for C8 on a concrete one-record database: a foreign user
gets a 404, a bad format flag gets a 400, and the two differ. -/
theorem c8_export_rejections_witness :
    exportConversation [sampleConversation] sampleConversation.id 99 "json" =
      Except.error ⟨404, "Conversation not found"⟩ ∧
    exportConversation [sampleConversation] sampleConversation.id 7 "xml" =
      Except.error ⟨400, "Unsupported format"⟩ ∧
    (⟨404, "Conversation not found"⟩ : HErr) ≠ ⟨400, "Unsupported format"⟩ :=
  ⟨(c8_export_rejections [sampleConversation] sampleConversation.id 99 "json"
      sampleConversation).1 (by decide),
   (c8_export_rejections [sampleConversation] sampleConversation.id 7 "xml"
      sampleConversation).2.1 (by decide) (by decide),
   (c8_export_rejections [sampleConversation] sampleConversation.id 7 "xml"
      sampleConversation).2.2⟩

/-! ## C5 — admission returns before work begins: refuted and amended -/

/-- C5 fails as stated: on a concrete valid upload, processing work on
the recording (the `process_audio_file` invocation) occurs in the trace
before the response carrying the task id is returned, so the task id is
not returned "before any processing work begins". -/
theorem c5_counterexample :
    marksOnlyAfter isReturnStep isProcessingWork
      (uploadSingleAudio okProcess wavFile "t5").1 = false := by decide

/-- C5 amended: stage 0 is still marked immediately on admission —
`create_task` and the stage-0 update are the first two trace events,
before any work — and no transcription or classification work happens
in the admission handler; but the task id is returned only after the
synchronous `process_audio_file` step has completed, not before all
processing work. -/
theorem c5_stage0_before_work (pa : UploadFile → Except String String)
    (file : UploadFile) (tid : String)
    (h : allowedContentTypes.contains file.content_type = true) :
    (uploadSingleAudio pa file tid).1.take 2 =
      [Event.createTask tid, Event.updateProgress tid 0 defaultStatus none] ∧
    (∀ e ∈ (uploadSingleAudio pa file tid).1,
      isTranscribeStep e = false ∧ isClassifyStep e = false) ∧
    (∀ p, pa file = Except.ok p →
      (uploadSingleAudio pa file tid).2 =
        Except.ok ⟨"File uploaded successfully, processing started", tid⟩ ∧
      (uploadSingleAudio pa file tid).1.getLast? =
        some (Event.returnAccepted tid)) := by
  have h2 : file.content_type ∈ allowedContentTypes := by simpa using h
  cases hp : pa file with
  | error m =>
    refine ⟨?_, ?_, ?_⟩ <;>
      simp [uploadSingleAudio, h2, hp, isTranscribeStep, isClassifyStep]
  | ok p =>
    refine ⟨?_, ?_, ?_⟩ <;>
      simp [uploadSingleAudio, h2, hp, isTranscribeStep, isClassifyStep]

/-- Witness for the amended C5 on a concrete accepted upload. -/
theorem c5_stage0_before_work_witness :
    (uploadSingleAudio okProcess wavFile "t5w").1.take 2 =
      [Event.createTask "t5w", Event.updateProgress "t5w" 0 defaultStatus none] ∧
    (uploadSingleAudio okProcess wavFile "t5w").2 =
      Except.ok ⟨"File uploaded successfully, processing started", "t5w"⟩ :=
  ⟨(c5_stage0_before_work okProcess wavFile "t5w" (by decide)).1,
   ((c5_stage0_before_work okProcess wavFile "t5w" (by decide)).2.2
     "/tmp/call.wav" rfl).1⟩

/-! ## C1 — stage marks versus step completion: refuted and amended -/

/-- C1 fails as stated: on a concrete run where every collaborator
succeeds, the stage-2 update is recorded in the trace before the
transcription step is even invoked, and the stage-3 update before the
classification step is invoked — not "only after the corresponding step
has completed successfully". -/
theorem c1_counterexample :
    marksOnlyAfter isTranscribeStep (isStageMark "t1" 2)
      (transcribeAndAnalyze okCollab "a.wav" 1 "t1").1 = false ∧
    marksOnlyAfter isClassifyStep (isStageMark "t1" 3)
      (transcribeAndAnalyze okCollab "a.wav" 1 "t1").1 = false := by decide

/-- C1 amended: the pipeline marks each stage ordinal immediately
*before* invoking the corresponding step, not after its success: the
trace always starts with the stage-1 update (conversion already
happened during admission), followed by the stage-2 update and only
then the transcription invocation; every stage-3 update is immediately
followed by the classification invocation; only stage 4 / `completed`
is recorded after its step (persistence) has succeeded, and it is then
the final event. -/
theorem c1_stage_marking_order (c : Collaborators) (fp : String) (uid : Nat)
    (tid : String) :
    (transcribeAndAnalyze c fp uid tid).1.take 3 =
      [Event.updateProgress tid 1 defaultStatus none,
       Event.updateProgress tid 2 defaultStatus none,
       Event.invokeTranscribe fp] ∧
    followedBy (Event.updateProgress tid 3 defaultStatus none) Event.invokeClassify
      (transcribeAndAnalyze c fp uid tid).1 = true ∧
    (∀ ed, Event.updateProgress tid 4 "completed" ed ∈
        (transcribeAndAnalyze c fp uid tid).1 →
      (transcribeAndAnalyze c fp uid tid).2 ≠ none ∧
      (transcribeAndAnalyze c fp uid tid).1.getLast? =
        some (Event.updateProgress tid 4 "completed" none)) := by
  cases h1 : c.transcribeAudio fp with
  | error m =>
    refine ⟨?_, ?_, ?_⟩ <;>
      simp [transcribeAndAnalyze, h1, followedBy, errorUpdate, defaultStatus]
  | ok t0 =>
    cases h2 : c.identifySpeakers t0.segments with
    | error m =>
      refine ⟨?_, ?_, ?_⟩ <;>
        simp [transcribeAndAnalyze, h1, h2, followedBy, errorUpdate, defaultStatus]
    | ok sp =>
      cases h3 : c.analyzeTurnTaking sp t0.segments with
      | error m =>
        refine ⟨?_, ?_, ?_⟩ <;>
          simp [transcribeAndAnalyze, h1, h2, h3, followedBy, errorUpdate, defaultStatus]
      | ok turns =>
        cases h4 : c.classifyDialogue (Transcript.mk t0.segments sp) with
        | error m =>
          refine ⟨?_, ?_, ?_⟩ <;>
            simp [transcribeAndAnalyze, h1, h2, h3, h4, followedBy, errorUpdate,
              defaultStatus]
        | ok a0 =>
          cases h5 : c.commitRecord
              ⟨uid, fp, Transcript.mk t0.segments sp,
               Analysis.mk a0.segments a0.summary turns⟩ with
          | error m =>
            refine ⟨?_, ?_, ?_⟩ <;>
              simp [transcribeAndAnalyze, h1, h2, h3, h4, h5, followedBy, errorUpdate,
                defaultStatus]
          | ok u =>
            refine ⟨?_, ?_, ?_⟩ <;>
              simp [transcribeAndAnalyze, h1, h2, h3, h4, h5, followedBy, errorUpdate,
                defaultStatus]

/-- Witness for the amended C1 on a concrete all-success run. -/
theorem c1_stage_marking_order_witness :
    (transcribeAndAnalyze okCollab "a.wav" 1 "t1w").1.take 3 =
      [Event.updateProgress "t1w" 1 defaultStatus none,
       Event.updateProgress "t1w" 2 defaultStatus none,
       Event.invokeTranscribe "a.wav"] ∧
    followedBy (Event.updateProgress "t1w" 3 defaultStatus none) Event.invokeClassify
      (transcribeAndAnalyze okCollab "a.wav" 1 "t1w").1 = true :=
  ⟨(c1_stage_marking_order okCollab "a.wav" 1 "t1w").1,
   (c1_stage_marking_order okCollab "a.wav" 1 "t1w").2.1⟩

/-! ## C2 — failures mark error, persist nothing, never read completed -/

/-- C2: when any pipeline step fails with message `m`, the task's
outcome is: nothing is committed to the database, the trace ends with
the error update carrying `m` (so no later stage is marked after the
failure), no `completed` update ever occurs, and any subsequent read of
the task from the progress store returns status `error` with detail
`m` — never `completed`. -/
theorem c2_failure_isolation (c : Collaborators) (fp : String) (uid : Nat)
    (tid : String) (m : String)
    (h : pipelineFailure c fp uid = some m) :
    (transcribeAndAnalyze c fp uid tid).2 = none ∧
    (transcribeAndAnalyze c fp uid tid).1.getLast? = some (errorUpdate tid m) ∧
    (∀ st ed, Event.updateProgress tid st "completed" ed ∉
      (transcribeAndAnalyze c fp uid tid).1) ∧
    (∀ s : ProgressStore,
      getProgress (replay (createTask s tid) (transcribeAndAnalyze c fp uid tid).1)
        tid = some ⟨-1, "error", some m⟩) := by
  cases h1 : c.transcribeAudio fp with
  | error m2 =>
    have hm : m2 = m := by simpa [pipelineFailure, h1] using h
    subst hm
    refine ⟨?_, ?_, ?_, ?_⟩ <;>
      simp [transcribeAndAnalyze, h1, errorUpdate, defaultStatus, replay, applyEvent,
        List.getLast?_concat, getProgress_updateProgress_self, getProgress_createTask_self]
  | ok t0 =>
    cases h2 : c.identifySpeakers t0.segments with
    | error m2 =>
      have hm : m2 = m := by simpa [pipelineFailure, h1, h2] using h
      subst hm
      refine ⟨?_, ?_, ?_, ?_⟩ <;>
        simp [transcribeAndAnalyze, h1, h2, errorUpdate, defaultStatus, replay,
          applyEvent, List.getLast?_concat, getProgress_updateProgress_self,
          getProgress_createTask_self]
    | ok sp =>
      cases h3 : c.analyzeTurnTaking sp t0.segments with
      | error m2 =>
        have hm : m2 = m := by simpa [pipelineFailure, h1, h2, h3] using h
        subst hm
        refine ⟨?_, ?_, ?_, ?_⟩ <;>
          simp [transcribeAndAnalyze, h1, h2, h3, errorUpdate, defaultStatus, replay,
            applyEvent, List.getLast?_concat, getProgress_updateProgress_self,
            getProgress_createTask_self]
      | ok turns =>
        cases h4 : c.classifyDialogue (Transcript.mk t0.segments sp) with
        | error m2 =>
          have hm : m2 = m := by simpa [pipelineFailure, h1, h2, h3, h4] using h
          subst hm
          refine ⟨?_, ?_, ?_, ?_⟩ <;>
            simp [transcribeAndAnalyze, h1, h2, h3, h4, errorUpdate, defaultStatus,
              replay, applyEvent, List.getLast?_concat, getProgress_updateProgress_self,
              getProgress_createTask_self]
        | ok a0 =>
          cases h5 : c.commitRecord
              ⟨uid, fp, Transcript.mk t0.segments sp,
               Analysis.mk a0.segments a0.summary turns⟩ with
          | error m2 =>
            have hm : m2 = m := by simpa [pipelineFailure, h1, h2, h3, h4, h5] using h
            subst hm
            refine ⟨?_, ?_, ?_, ?_⟩ <;>
              simp [transcribeAndAnalyze, h1, h2, h3, h4, h5, errorUpdate,
                defaultStatus, replay, applyEvent, List.getLast?_concat,
                getProgress_updateProgress_self, getProgress_createTask_self]
          | ok u =>
            exact absurd h (by simp [pipelineFailure, h1, h2, h3, h4, h5])

/-- Witness for C2: a concrete run whose transcription step fails. -/
theorem c2_failure_isolation_witness :
    (transcribeAndAnalyze failTranscribeCollab "a.wav" 1 "t2w").2 = none ∧
    (transcribeAndAnalyze failTranscribeCollab "a.wav" 1 "t2w").1.getLast? =
      some (errorUpdate "t2w" "whisper crashed") ∧
    getProgress
      (replay (createTask [] "t2w") (transcribeAndAnalyze failTranscribeCollab "a.wav" 1 "t2w").1)
      "t2w" = some ⟨-1, "error", some "whisper crashed"⟩ :=
  ⟨(c2_failure_isolation failTranscribeCollab "a.wav" 1 "t2w" "whisper crashed"
      (by decide)).1,
   (c2_failure_isolation failTranscribeCollab "a.wav" 1 "t2w" "whisper crashed"
      (by decide)).2.1,
   (c2_failure_isolation failTranscribeCollab "a.wav" 1 "t2w" "whisper crashed"
      (by decide)).2.2.2 []⟩

/-! ## C3 — stage monotonicity: refuted and amended -/

/-- C3 fails as stated: on a concrete run failing at the
classification step, the transition to `error` does write a stage
ordinal — the full sequence of stage values written for the task is
`[1, 2, 3, -1]`, which is not strictly increasing, and the store's
stage field is overwritten with `-1`. -/
theorem c3_counterexample :
    stageWrites "t3" (transcribeAndAnalyze failClassifyCollab "a.wav" 1 "t3").1 =
      [1, 2, 3, -1] ∧
    ¬ List.Chain' (· < ·)
      (stageWrites "t3" (transcribeAndAnalyze failClassifyCollab "a.wav" 1 "t3").1) ∧
    getProgress
      (replay (createTask [] "t3")
        (transcribeAndAnalyze failClassifyCollab "a.wav" 1 "t3").1) "t3" =
      some ⟨-1, "error", some "classifier down"⟩ := by
  have h : stageWrites "t3" (transcribeAndAnalyze failClassifyCollab "a.wav" 1 "t3").1 =
      [1, 2, 3, -1] := by decide
  refine ⟨h, ?_, by decide⟩
  rw [h]
  intro hc
  simp [List.chain'_cons] at hc

/-- C3 amended: over the whole lifetime of a task, the stage values
written by non-error progress updates are strictly monotonically
increasing; the transition to the `error` status, however, does write a
stage ordinal along with the status flag and error detail — the
sentinel `-1` from the background pipeline, or `0` from the admission
handler. -/
theorem c3_stage_monotonicity (c : Collaborators)
    (pa : UploadFile → Except String String) (file : UploadFile) (uid : Nat)
    (tid : String) :
    List.Chain' (· < ·) (nonErrorStageWrites tid (taskLifetime c pa file uid tid)) ∧
    (∀ st ∈ errorStageWrites tid (taskLifetime c pa file uid tid),
      st = -1 ∨ st = 0) := by
  by_cases hct : file.content_type ∈ allowedContentTypes
  case neg =>
    cases hp : pa file with
    | error m =>
      constructor <;>
        simp [taskLifetime, uploadSingleAudio, hp, hct, nonErrorStageWrites,
          errorStageWrites]
    | ok p =>
      constructor <;>
        simp [taskLifetime, uploadSingleAudio, hp, hct, nonErrorStageWrites,
          errorStageWrites]
  case pos =>
    cases hp : pa file with
    | error m =>
      constructor <;>
        simp [taskLifetime, uploadSingleAudio, hp, hct, nonErrorStageWrites,
          errorStageWrites, defaultStatus]
    | ok p =>
      cases h1 : c.transcribeAudio p with
      | error m =>
        constructor <;>
          simp [taskLifetime, uploadSingleAudio, transcribeAndAnalyze, hp, hct, h1,
            nonErrorStageWrites, errorStageWrites, defaultStatus, errorUpdate]
      | ok t0 =>
        cases h2 : c.identifySpeakers t0.segments with
        | error m =>
          constructor <;>
            simp [taskLifetime, uploadSingleAudio, transcribeAndAnalyze, hp, hct, h1,
              h2, nonErrorStageWrites, errorStageWrites, defaultStatus, errorUpdate]
        | ok sp =>
          cases h3 : c.analyzeTurnTaking sp t0.segments with
          | error m =>
            constructor <;>
              simp [taskLifetime, uploadSingleAudio, transcribeAndAnalyze, hp, hct,
                h1, h2, h3, nonErrorStageWrites, errorStageWrites, defaultStatus,
                errorUpdate]
          | ok turns =>
            cases h4 : c.classifyDialogue (Transcript.mk t0.segments sp) with
            | error m =>
              constructor <;>
                simp [taskLifetime, uploadSingleAudio, transcribeAndAnalyze, hp, hct,
                  h1, h2, h3, h4, nonErrorStageWrites, errorStageWrites,
                  defaultStatus, errorUpdate]
            | ok a0 =>
              cases h5 : c.commitRecord
                  ⟨uid, p, Transcript.mk t0.segments sp,
                   Analysis.mk a0.segments a0.summary turns⟩ with
              | error m =>
                constructor <;>
                  simp [taskLifetime, uploadSingleAudio, transcribeAndAnalyze, hp,
                    hct, h1, h2, h3, h4, h5, nonErrorStageWrites, errorStageWrites,
                    defaultStatus, errorUpdate]
              | ok u =>
                constructor <;>
                  simp [taskLifetime, uploadSingleAudio, transcribeAndAnalyze, hp,
                    hct, h1, h2, h3, h4, h5, nonErrorStageWrites, errorStageWrites,
                    defaultStatus, errorUpdate]

/-- Witness for the amended C3 on a concrete lifetime with an
all-success run. -/
theorem c3_stage_monotonicity_witness :
    List.Chain' (· < ·)
      (nonErrorStageWrites "t3w" (taskLifetime okCollab okProcess wavFile 1 "t3w")) ∧
    (∀ st ∈ errorStageWrites "t3w" (taskLifetime okCollab okProcess wavFile 1 "t3w"),
      st = -1 ∨ st = 0) :=
  c3_stage_monotonicity okCollab okProcess wavFile 1 "t3w"

/-! ## C7 — csv export fails on a missing start-timestamp match -/

theorem csvRows_error_of_missing (asegs : List AnalysisSegment) :
    ∀ (segs : List TranscriptSegment) (seg : TranscriptSegment), seg ∈ segs →
      asegs.find? (fun s => s.start == seg.start) = none →
      ∃ m, csvRows asegs segs = Except.error m := by
  intro segs
  induction segs with
  | nil => intro seg h; simp at h
  | cons s rest ih =>
    intro seg hmem hfind
    rcases List.mem_cons.mp hmem with rfl | hmem2
    · exact ⟨"StopIteration", by simp [csvRows, hfind]⟩
    · cases hf : asegs.find? (fun x => x.start == s.start) with
      | none => exact ⟨"StopIteration", by simp [csvRows, hf]⟩
      | some a =>
        obtain ⟨m, hm⟩ := ih seg hmem2 hfind
        exact ⟨m, by simp [csvRows, hf, hm, Except.map]⟩

/-- C7: in the tabular (csv) export, phase and sentiment are looked up
by exact equality of the transcript segment's `start` with an analysis
segment's `start`; a transcript segment whose start has no matching
analysis-segment start makes the whole export fail with an error
(Python's uncaught `StopIteration`) — no output with blank
phase/sentiment fields is ever produced. -/
theorem c7_csv_missing_match (conv : Conversation) (seg : TranscriptSegment)
    (h1 : seg ∈ conv.transcript.segments)
    (h2 : conv.analysis.segments.find? (fun s => s.start == seg.start) = none) :
    (∃ m, exportCsv conv = Except.error m) ∧
    ∀ out, exportCsv conv ≠ Except.ok out := by
  obtain ⟨m, hm⟩ :=
    csvRows_error_of_missing conv.analysis.segments conv.transcript.segments seg h1 h2
  constructor
  · exact ⟨m, by simp [exportCsv, hm, Except.map]⟩
  · intro out hout
    simp [exportCsv, hm, Except.map] at hout

/-- Witness for C7: a concrete record whose transcript segment starts
at 1 while the only analysis segment starts at 0. -/
theorem c7_csv_missing_match_witness :
    ∃ m, exportCsv mismatchConversation = Except.error m :=
  (c7_csv_missing_match mismatchConversation ⟨1, 2, "A", "hi"⟩
    (by decide) (by decide)).1

/-! ## C9 — structured export round-trip -/

theorem parseRatPairs_roundtrip (ps : List (String × ℚ)) :
    parseRatPairs (Json.obj (ps.map (fun p => (p.1, Json.num p.2)))) = some ps := by
  induction ps with
  | nil => rfl
  | cons p rest ih =>
    have ih2 : mapOption (fun q => (asNum q.2).map (fun r => (q.1, r)))
        (rest.map (fun p => (p.1, Json.num p.2))) = some rest := by
      simpa [parseRatPairs] using ih
    simp only [parseRatPairs, mapOption, List.map_cons]
    rw [ih2]
    simp [asNum]

theorem ratToNat_natCast (n : Nat) : ratToNat (n : ℚ) = some n := by
  simp [ratToNat]

theorem parseNatPairs_roundtrip (ps : List (String × Nat)) :
    parseNatPairs (Json.obj (ps.map (fun p => (p.1, Json.num (p.2 : ℚ))))) =
      some ps := by
  induction ps with
  | nil => rfl
  | cons p rest ih =>
    have ih2 : mapOption (fun q => ((asNum q.2).bind ratToNat).map (fun n => (q.1, n)))
        (rest.map (fun p => (p.1, Json.num (p.2 : ℚ)))) = some rest := by
      simpa [parseNatPairs] using ih
    simp only [parseNatPairs, mapOption, List.map_cons]
    rw [ih2]
    simp [asNum, ratToNat_natCast]

/-- C9: exporting a persisted record in structured (json) form and
re-parsing the result reproduces the stored record's transcript segment
count and all three analysis summary fields (duration,
phase_distribution, sentiment_summary) exactly. -/
theorem c9_structured_roundtrip (conv : Conversation) :
    reparseSegmentCount (exportJson conv) = some conv.transcript.segments.length ∧
    reparseSummary (exportJson conv) = some conv.analysis.summary := by
  constructor
  · simp [reparseSegmentCount, exportJson, transcriptToJson, Json.getField, asArr]
  · simp [reparseSummary, exportJson, analysisToJson, summaryToJson, Json.getField,
      parseSummary, asNum, parseRatPairs_roundtrip, parseNatPairs_roundtrip]

/-! ## C10 — per-file failure isolation in a batch -/

theorem processBatch_entries_length (pa : UploadFile → Except String String)
    (gen : Nat → String) :
    ∀ (fs : List UploadFile) (i : Nat),
      ((processBatch pa gen i fs).2).length = fs.length := by
  intro fs
  induction fs with
  | nil => intro i; simp [processBatch]
  | cons f rest ih => intro i; simp [processBatch, ih (i + 1)]

theorem processBatch_entries_get? (pa : UploadFile → Except String String)
    (gen : Nat → String) :
    ∀ (fs : List UploadFile) (i k : Nat),
      ((processBatch pa gen i fs).2)[k]? =
        (fs[k]?).map (fun f => entryFor (gen (i + k)) f (pa f)) := by
  intro fs
  induction fs with
  | nil => intro i k; simp [processBatch]
  | cons f rest ih =>
    intro i k
    cases k with
    | zero => simp [processBatch]
    | succ k2 =>
      have h : i + (k2 + 1) = (i + 1) + k2 := by omega
      simpa [processBatch, h] using ih (i + 1) k2

theorem processBatch_events_mem (pa : UploadFile → Except String String)
    (gen : Nat → String) :
    ∀ (fs : List UploadFile) (i : Nat) (e : Event),
      e ∈ (processBatch pa gen i fs).1 ↔
        ∃ k f, fs[k]? = some f ∧ e ∈ eventsFor (gen (i + k)) f (pa f) := by
  intro fs
  induction fs with
  | nil => intro i e; simp [processBatch]
  | cons f rest ih =>
    intro i e
    simp only [processBatch, List.mem_append]
    constructor
    · rintro (h | h)
      · exact ⟨0, f, by simp, by simpa using h⟩
      · obtain ⟨k, f2, hk, he⟩ := (ih (i + 1) e).mp h
        refine ⟨k + 1, f2, by simpa using hk, ?_⟩
        have h2 : i + (k + 1) = (i + 1) + k := by omega
        rw [h2]
        exact he
    · rintro ⟨k, f2, hk, he⟩
      cases k with
      | zero =>
        left
        have hf : f = f2 := by simpa using hk
        subst hf
        simpa using he
      | succ k2 =>
        right
        refine (ih (i + 1) e).mpr ⟨k2, f2, by simpa using hk, ?_⟩
        have h2 : (i + 1) + k2 = i + (k2 + 1) := by omega
        rw [h2]
        exact he

/-- C10: in a batch whose members all pass media-type validation, a
failure of `process_audio_file` on one file never aborts the batch: the
response is a 202 with exactly one entry per submitted file in input
order, each carrying its own fresh task id; every file's task is
created, a failed file's entry carries the error message and only its
own task is marked errored, while every other file is dispatched for
background processing with no error mark on its task. -/
theorem c10_batch_isolation (pa : UploadFile → Except String String)
    (gen : Nat → String) (files : List UploadFile)
    (hval : files.find? (fun f => !(allowedContentTypes.contains f.content_type)) = none)
    (hlen : files.length ≤ 10) :
    uploadBatchAudio pa gen files =
      ((processBatch pa gen 0 files).1, Except.ok (processBatch pa gen 0 files).2) ∧
    (processBatch pa gen 0 files).2.length = files.length ∧
    (∀ k f, files[k]? = some f →
      ((processBatch pa gen 0 files).2)[k]? = some (entryFor (gen k) f (pa f)) ∧
      (entryFor (gen k) f (pa f)).task_id = gen k ∧
      Event.createTask (gen k) ∈ (processBatch pa gen 0 files).1 ∧
      (∀ m, pa f = Except.error m →
        (entryFor (gen k) f (pa f)).error = some m ∧
        Event.updateProgress (gen k) 0 "error" (some m) ∈
          (processBatch pa gen 0 files).1) ∧
      (∀ p, pa f = Except.ok p →
        (entryFor (gen k) f (pa f)).error = none ∧
        Event.addBackgroundTask (gen k) ∈ (processBatch pa gen 0 files).1)) ∧
    (Function.Injective gen →
      ∀ k f p, files[k]? = some f → pa f = Except.ok p →
        ∀ st ed, Event.updateProgress (gen k) st "error" ed ∉
          (processBatch pa gen 0 files).1) := by
  have h10 : ¬ files.length > 10 := by omega
  refine ⟨?_, processBatch_entries_length pa gen files 0, ?_, ?_⟩
  · unfold uploadBatchAudio
    rw [if_neg h10, hval]
  · intro k f hk
    refine ⟨?_, ?_, ?_, ?_, ?_⟩
    · rw [processBatch_entries_get? pa gen files 0 k, hk]
      simp
    · cases hpf : pa f <;> simp [entryFor]
    · refine (processBatch_events_mem pa gen files 0 _).mpr ⟨k, f, hk, ?_⟩
      cases hpf : pa f <;> simp [eventsFor]
    · intro m hm
      refine ⟨by simp [entryFor, hm], ?_⟩
      exact (processBatch_events_mem pa gen files 0 _).mpr
        ⟨k, f, hk, by simp [eventsFor, hm]⟩
    · intro p hp
      refine ⟨by simp [entryFor, hp], ?_⟩
      exact (processBatch_events_mem pa gen files 0 _).mpr
        ⟨k, f, hk, by simp [eventsFor, hp]⟩
  · intro hinj k f p hk hpf st ed hmem
    obtain ⟨j, f2, hj, he⟩ := (processBatch_events_mem pa gen files 0 _).mp hmem
    cases hpf2 : pa f2 with
    | ok q => simp [eventsFor, hpf2] at he
    | error m =>
      rw [hpf2] at he
      simp only [eventsFor, List.mem_cons, List.not_mem_nil, or_false] at he
      rcases he with he | he | he
      · exact Event.noConfusion he
      · exact Event.noConfusion he
      · have hgen : gen k = gen j := by
          have := (Event.updateProgress.injEq _ _ _ _ _ _ _ _).mp he
          simpa using this.1
        have hkj : k = j := hinj hgen
        subst hkj
        rw [hk] at hj
        have hf : f = f2 := by simpa using hj
        subst hf
        rw [hpf] at hpf2
        exact Except.noConfusion hpf2

/-- Witness for C10: a 3-file valid batch whose middle file fails
synchronous processing still yields a 202 with one entry per file. -/
theorem c10_batch_isolation_witness :
    uploadBatchAudio flakyProcess genId batchFiles =
      ((processBatch flakyProcess genId 0 batchFiles).1,
       Except.ok (processBatch flakyProcess genId 0 batchFiles).2) ∧
    (processBatch flakyProcess genId 0 batchFiles).2.length = batchFiles.length :=
  ⟨(c10_batch_isolation flakyProcess genId batchFiles (by decide) (by decide)).1,
   (c10_batch_isolation flakyProcess genId batchFiles (by decide) (by decide)).2.1⟩

end SalesPipeline
